import Mathlib

/-!
Verification of the motion-simulator core of ts_Dome (mock low-level
controller axis models).

The development shallowly embeds the axis motion models:

* `ElevationMotion` (src/python/lsst/ts/MTDome/mock_llc/mock_motion/
  elevation_motion.py) is embedded directly from the source:
  `MTDome.elevGetRaw` / `MTDome.elevGet` mirror
  `get_position_velocity_and_motion_state`, `MTDome.elevStop` mirrors `stop`
  and `MTDome.elevPark` mirrors `park`.
* The shared base class `BaseLlcMotion` and the azimuth model
  `AzimuthMotion` are not among the excerpted sources (only their test file
  `tests/test_azimuth_motion.py` is); they are modelled from the spec, with
  each such definition carrying a `Modelled from the spec:` doc comment, and
  validated against the expectations encoded in the test file.

Python floats are modelled as real numbers; `salobj.angle_wrap_nonnegative`
composed with the degrees/radians round trip is the reduction of an angle
into [0, 2*pi), modelled by `MTDome.wrap`.
-/

namespace MTDome

/-- The discrete motion states of `lsst.ts.idl.enums.MTDome.MotionState`
used by the motion models. -/
inductive MotionState where
  | STOPPED
  | MOVING
  | CRAWLING
  | STOPPING
  | PARKING
  | PARKED
deriving DecidableEq, Repr

/-- The error kinds raised by the motion models: `ValueError` for a query
time before the start time of the installed segment, `ValueError` for a
requested crawl velocity above the maximum speed, and `NotImplementedError`
for `park` on the elevation model. -/
inductive MotionError where
  | outOfOrderTime
  | invalidVelocity
  | notImplemented
deriving DecidableEq, Repr

/-- The state held by a motion model instance: the fields of
`BaseLlcMotion` (`_start_position`, `_end_position`, `_start_tai`,
`_end_tai`, `_crawl_velocity`, `_commanded_motion_state`) together with the
axis configuration (`_min_position`, `_max_position`, `_max_speed`). -/
structure LlcState where
  start_position : ℝ
  end_position : ℝ
  start_tai : ℝ
  end_tai : ℝ
  crawl_velocity : ℝ
  commanded_motion_state : MotionState
  min_position : ℝ
  max_position : ℝ
  max_speed : ℝ

/-- The reduction of an angle in radians into the interval [0, 2*pi),
modelling `salobj.angle_wrap_nonnegative(math.degrees(position)).rad`. -/
noncomputable def wrap (x : ℝ) : ℝ := x - 2 * Real.pi * ⌊x / (2 * Real.pi)⌋

/-- `math.radians`: conversion of degrees to radians. -/
noncomputable def rad (d : ℝ) : ℝ := d * Real.pi / 180

lemma two_pi_pos : (0 : ℝ) < 2 * Real.pi := by positivity

lemma wrap_eq_sub_int (x : ℝ) (k : ℤ) (h1 : 2 * Real.pi * k ≤ x)
    (h2 : x < 2 * Real.pi * (k + 1)) : wrap x = x - 2 * Real.pi * k := by
  have hfloor : ⌊x / (2 * Real.pi)⌋ = k := by
    rw [Int.floor_eq_iff]
    constructor
    · rw [le_div_iff two_pi_pos]
      linarith [h1]
    · rw [div_lt_iff two_pi_pos]
      push_cast
      linarith [h2]
  rw [wrap, hfloor]

lemma wrap_eq_self {x : ℝ} (h0 : 0 ≤ x) (h1 : x < 2 * Real.pi) :
    wrap x = x := by
  have := wrap_eq_sub_int x 0 (by simpa using h0) (by push_cast; simpa using h1)
  simpa using this

lemma wrap_nonneg (x : ℝ) : 0 ≤ wrap x := by
  have h := Int.floor_le (x / (2 * Real.pi))
  have h2 : 2 * Real.pi * ⌊x / (2 * Real.pi)⌋ ≤ x := by
    rw [mul_comm]
    exact (le_div_iff two_pi_pos).mp h
  simpa [wrap] using h2

lemma wrap_lt_two_pi (x : ℝ) : wrap x < 2 * Real.pi := by
  have h := Int.lt_floor_add_one (x / (2 * Real.pi))
  have h2 : x < 2 * Real.pi * (⌊x / (2 * Real.pi)⌋ + 1) := by
    rw [mul_comm]
    rw [div_lt_iff two_pi_pos] at h
    push_cast
    push_cast at h
    linarith
  have : x - 2 * Real.pi * ⌊x / (2 * Real.pi)⌋ < 2 * Real.pi := by linarith
  simpa [wrap] using this

lemma wrap_idem (x : ℝ) : wrap (wrap x) = wrap x :=
  wrap_eq_self (wrap_nonneg x) (wrap_lt_two_pi x)

lemma wrap_add_two_pi (x : ℝ) : wrap (x + 2 * Real.pi) = wrap x := by
  have hdiv : (x + 2 * Real.pi) / (2 * Real.pi) = x / (2 * Real.pi) + 1 := by
    field_simp
  have hfloor : ⌊(x + 2 * Real.pi) / (2 * Real.pi)⌋ = ⌊x / (2 * Real.pi)⌋ + 1 := by
    rw [hdiv, Int.floor_add_one]
  unfold wrap
  rw [hfloor]
  push_cast
  ring

lemma wrap_sub_two_pi (x : ℝ) : wrap (x - 2 * Real.pi) = wrap x := by
  have := wrap_add_two_pi (x - 2 * Real.pi)
  simpa using this.symm

lemma rad_pos {a : ℝ} (h : 0 < a) : 0 < rad a := by
  unfold rad
  positivity

lemma rad_nonneg {a : ℝ} (h : 0 ≤ a) : 0 ≤ rad a := by
  unfold rad
  positivity

lemma rad_lt_rad {a b : ℝ} (h : a < b) : rad a < rad b := by
  unfold rad
  have hpi : (0 : ℝ) < Real.pi / 180 := by positivity
  calc a * Real.pi / 180 = a * (Real.pi / 180) := by ring
    _ < b * (Real.pi / 180) := by exact mul_lt_mul_of_pos_right h hpi
    _ = b * Real.pi / 180 := by ring

lemma rad_le_rad {a b : ℝ} (h : a ≤ b) : rad a ≤ rad b := by
  rcases eq_or_lt_of_le h with rfl | h
  · exact le_refl _
  · exact le_of_lt (rad_lt_rad h)

lemma rad_add (a b : ℝ) : rad a + rad b = rad (a + b) := by
  unfold rad
  ring

lemma rad_mul (a x : ℝ) : rad a * x = rad (a * x) := by
  unfold rad
  ring

lemma two_pi_eq_rad : 2 * Real.pi = rad 360 := by
  unfold rad
  ring

lemma abs_rad (a : ℝ) : |rad a| = rad |a| := by
  unfold rad
  rw [abs_div, abs_mul, abs_of_nonneg Real.pi_pos.le]
  norm_num

lemma rad_ne_zero {a : ℝ} (h : a ≠ 0) : rad a ≠ 0 := by
  unfold rad
  intro hc
  rw [div_eq_zero_iff] at hc
  rcases hc with hc | hc
  · rcases mul_eq_zero.mp hc with h1 | h1
    · exact h h1
    · exact Real.pi_ne_zero h1
  · norm_num at hc

lemma rad_div_rad {a b : ℝ} (hb : b ≠ 0) : rad a / rad b = a / b := by
  unfold rad
  have hpi := Real.pi_ne_zero
  field_simp
  ring

lemma wrap_rad_eq {a : ℝ} (h0 : 0 ≤ a) (h1 : a < 360) : wrap (rad a) = rad a :=
  wrap_eq_self (rad_nonneg h0) (by rw [two_pi_eq_rad]; exact rad_lt_rad h1)

lemma wrap_rad_sub {a : ℝ} (h0 : 360 ≤ a) (h1 : a < 720) :
    wrap (rad a) = rad (a - 360) := by
  have : rad a = rad (a - 360) + 2 * Real.pi := by
    rw [two_pi_eq_rad, rad_add]
    norm_num
  rw [this, wrap_add_two_pi]
  exact wrap_rad_eq (by linarith) (by linarith)

/-! ## The elevation motion model

`ElevationMotion` from
src/python/lsst/ts/MTDome/mock_llc/mock_motion/elevation_motion.py.
-/

/-- Modelled from the spec: `BaseLlcMotion._get_distance` is not among the
excerpted sources (only `ElevationMotion` and the azimuth tests are). Per
the spec the elevation distance is the plain signed difference between the
segment's end and start positions, with no wrap. -/
noncomputable def elevDistance (s : LlcState) : ℝ :=
  s.end_position - s.start_position

/-- The branch structure of
`ElevationMotion.get_position_velocity_and_motion_state` before the final
normalization of the position (source lines 94-137): held/crawling
evaluation for `tai >= end_tai`, out-of-order error for `tai < start_tai`,
and linear interpolation while in transit. -/
noncomputable def elevGetRaw (s : LlcState) (tai : ℝ) :
    Except MotionError (ℝ × ℝ × MotionState) :=
  if s.end_tai ≤ tai then
    if s.commanded_motion_state = MotionState.STOPPING ∨
        s.commanded_motion_state = MotionState.STOPPED ∨
        s.commanded_motion_state = MotionState.MOVING then
      Except.ok (s.end_position, 0, MotionState.STOPPED)
    else
      let diff_since_crawl_started := tai - s.end_tai
      let position := s.start_position + s.crawl_velocity * diff_since_crawl_started
      let clamped :=
        if s.max_position ≤ position then
          (s.max_position, (0 : ℝ), MotionState.STOPPED)
        else if position ≤ s.min_position then
          (s.min_position, (0 : ℝ), MotionState.STOPPED)
        else (position, s.crawl_velocity, MotionState.CRAWLING)
      if s.crawl_velocity = 0 then Except.ok (clamped.1, 0, MotionState.STOPPED)
      else Except.ok clamped
  else if tai < s.start_tai then Except.error MotionError.outOfOrderTime
  else
    let frac_time := (tai - s.start_tai) / (s.end_tai - s.start_tai)
    let distance := elevDistance s
    let position := s.start_position + distance * frac_time
    let velocity := if distance < 0 then -s.max_speed else s.max_speed
    if s.commanded_motion_state = MotionState.STOPPING then
      Except.ok (position, 0, MotionState.STOPPED)
    else Except.ok (position, velocity, MotionState.MOVING)

/-- `ElevationMotion.get_position_velocity_and_motion_state`: the raw branch
result with the position normalized into [0, 2*pi) on return (source line
139: `position = salobj.angle_wrap_nonnegative(math.degrees(position)).rad`). -/
noncomputable def elevGet (s : LlcState) (tai : ℝ) :
    Except MotionError (ℝ × ℝ × MotionState) :=
  (elevGetRaw s tai).map fun r => (wrap r.1, r.2.1, r.2.2)

/-- `ElevationMotion.stop`: evaluate position at the command time, then
freeze the segment at that position with commanded state STOPPING. Note
that the source updates `_start_tai`, `_start_position`, `_end_position`,
`_crawl_velocity` and `_commanded_motion_state` but not `_end_tai`. -/
noncomputable def elevStop (s : LlcState) (t : ℝ) : Except MotionError LlcState :=
  (elevGet s t).map fun r =>
    { s with
      start_tai := t
      start_position := r.1
      end_position := r.1
      crawl_velocity := 0
      commanded_motion_state := MotionState.STOPPING }

/-- `ElevationMotion.park`: unconditionally raises `NotImplementedError`,
touching no state. -/
def elevPark (_s : LlcState) (_t : ℝ) : Except MotionError LlcState :=
  Except.error MotionError.notImplemented

/-- Modelled from the spec: `BaseLlcMotion.__init__` is not among the
excerpted sources. Per the spec a model instance starts with the given
initial position and time as an instantaneous (zero-length) segment with
zero crawl velocity and commanded state STOPPED. -/
noncomputable def elevInit (start_position min_position max_position max_speed
    start_tai : ℝ) : LlcState :=
  { start_position := start_position
    end_position := start_position
    start_tai := start_tai
    end_tai := start_tai
    crawl_velocity := 0
    commanded_motion_state := MotionState.STOPPED
    min_position := min_position
    max_position := max_position
    max_speed := max_speed }

lemma elevGetRaw_hold {s : LlcState} {tai : ℝ} (h : s.end_tai ≤ tai)
    (hm : s.commanded_motion_state = MotionState.STOPPING ∨
      s.commanded_motion_state = MotionState.STOPPED ∨
      s.commanded_motion_state = MotionState.MOVING) :
    elevGetRaw s tai = Except.ok (s.end_position, 0, MotionState.STOPPED) := by
  unfold elevGetRaw
  rw [if_pos h, if_pos hm]

lemma elevGetRaw_crawl_max {s : LlcState} {tai : ℝ} (h : s.end_tai ≤ tai)
    (hm : ¬ (s.commanded_motion_state = MotionState.STOPPING ∨
      s.commanded_motion_state = MotionState.STOPPED ∨
      s.commanded_motion_state = MotionState.MOVING))
    (hmax : s.max_position ≤ s.start_position + s.crawl_velocity * (tai - s.end_tai)) :
    elevGetRaw s tai = Except.ok (s.max_position, 0, MotionState.STOPPED) := by
  unfold elevGetRaw
  rw [if_pos h, if_neg hm]
  dsimp only
  rw [if_pos hmax]
  split_ifs <;> rfl

lemma elevGetRaw_crawl_min {s : LlcState} {tai : ℝ} (h : s.end_tai ≤ tai)
    (hm : ¬ (s.commanded_motion_state = MotionState.STOPPING ∨
      s.commanded_motion_state = MotionState.STOPPED ∨
      s.commanded_motion_state = MotionState.MOVING))
    (hnmax : ¬ s.max_position ≤ s.start_position + s.crawl_velocity * (tai - s.end_tai))
    (hmin : s.start_position + s.crawl_velocity * (tai - s.end_tai) ≤ s.min_position) :
    elevGetRaw s tai = Except.ok (s.min_position, 0, MotionState.STOPPED) := by
  unfold elevGetRaw
  rw [if_pos h, if_neg hm]
  dsimp only
  rw [if_neg hnmax, if_pos hmin]
  split_ifs <;> rfl

lemma elevGetRaw_crawl_mid {s : LlcState} {tai : ℝ} (h : s.end_tai ≤ tai)
    (hm : ¬ (s.commanded_motion_state = MotionState.STOPPING ∨
      s.commanded_motion_state = MotionState.STOPPED ∨
      s.commanded_motion_state = MotionState.MOVING))
    (hnmax : ¬ s.max_position ≤ s.start_position + s.crawl_velocity * (tai - s.end_tai))
    (hnmin : ¬ s.start_position + s.crawl_velocity * (tai - s.end_tai) ≤ s.min_position)
    (hv : s.crawl_velocity ≠ 0) :
    elevGetRaw s tai = Except.ok (s.start_position + s.crawl_velocity * (tai - s.end_tai),
      s.crawl_velocity, MotionState.CRAWLING) := by
  unfold elevGetRaw
  rw [if_pos h, if_neg hm]
  dsimp only
  rw [if_neg hnmax, if_neg hnmin, if_neg hv]

lemma elevGetRaw_crawl_mid_zero {s : LlcState} {tai : ℝ} (h : s.end_tai ≤ tai)
    (hm : ¬ (s.commanded_motion_state = MotionState.STOPPING ∨
      s.commanded_motion_state = MotionState.STOPPED ∨
      s.commanded_motion_state = MotionState.MOVING))
    (hnmax : ¬ s.max_position ≤ s.start_position + s.crawl_velocity * (tai - s.end_tai))
    (hnmin : ¬ s.start_position + s.crawl_velocity * (tai - s.end_tai) ≤ s.min_position)
    (hv : s.crawl_velocity = 0) :
    elevGetRaw s tai = Except.ok (s.start_position + s.crawl_velocity * (tai - s.end_tai),
      0, MotionState.STOPPED) := by
  unfold elevGetRaw
  rw [if_pos h, if_neg hm]
  dsimp only
  rw [if_neg hnmax, if_neg hnmin, if_pos hv]

lemma elevGetRaw_error {s : LlcState} {tai : ℝ} (h1 : ¬ s.end_tai ≤ tai)
    (h2 : tai < s.start_tai) :
    elevGetRaw s tai = Except.error MotionError.outOfOrderTime := by
  unfold elevGetRaw
  rw [if_neg h1, if_pos h2]

lemma elevGetRaw_transit {s : LlcState} {tai : ℝ} (h1 : ¬ s.end_tai ≤ tai)
    (h2 : ¬ tai < s.start_tai) :
    elevGetRaw s tai =
      (if s.commanded_motion_state = MotionState.STOPPING then
        Except.ok (s.start_position +
          elevDistance s * ((tai - s.start_tai) / (s.end_tai - s.start_tai)),
          0, MotionState.STOPPED)
      else
        Except.ok (s.start_position +
          elevDistance s * ((tai - s.start_tai) / (s.end_tai - s.start_tai)),
          if elevDistance s < 0 then -s.max_speed else s.max_speed,
          MotionState.MOVING)) := by
  unfold elevGetRaw
  rw [if_neg h1, if_neg h2]

lemma elevGet_eq_ok {s : LlcState} {tai p v : ℝ} {m : MotionState}
    (h : elevGetRaw s tai = Except.ok (p, v, m)) :
    elevGet s tai = Except.ok (wrap p, v, m) := by
  rw [elevGet, h]
  rfl

lemma elevGet_eq_error {s : LlcState} {tai : ℝ} {e : MotionError}
    (h : elevGetRaw s tai = Except.error e) :
    elevGet s tai = Except.error e := by
  rw [elevGet, h]
  rfl

lemma elevGet_ok_inv {s : LlcState} {tai p v : ℝ} {m : MotionState}
    (h : elevGet s tai = Except.ok (p, v, m)) :
    ∃ praw, elevGetRaw s tai = Except.ok (praw, v, m) ∧ p = wrap praw := by
  rw [elevGet] at h
  cases hr : elevGetRaw s tai with
  | error e => rw [hr] at h; simp [Except.map] at h
  | ok r =>
    obtain ⟨r1, r2, r3⟩ := r
    rw [hr] at h
    simp only [Except.map, Except.ok.injEq, Prod.mk.injEq] at h
    obtain ⟨h1, h2, h3⟩ := h
    refine ⟨r1, ?_, h1.symm⟩
    rw [h2, h3]

lemma elevGet_pos_wrapped {s : LlcState} {tai p v : ℝ} {m : MotionState}
    (h : elevGet s tai = Except.ok (p, v, m)) : wrap p = p := by
  obtain ⟨praw, _, hp⟩ := elevGet_ok_inv h
  rw [hp, wrap_idem]

/-! ## The azimuth motion model

`AzimuthMotion` is not among the excerpted sources; only its test file
`tests/test_azimuth_motion.py` is. The definitions below are modelled from
the spec and validated against the expectations of that test file.
-/

/-- Helper for the shortest-path selection: of two signed deltas keep the
one of smaller absolute value, an exact tie resolving toward the positive
(larger) one. -/
noncomputable def pickShorter (a b : ℝ) : ℝ :=
  if |b| < |a| then b else if |a| < |b| then a else max a b

/-- Modelled from the spec: the azimuth shortest-path signed distance. The
candidate deltas are `target - current`, `target - current + 2*pi` and
`target - current - 2*pi`; the one of smallest absolute value is chosen,
exact ties resolving toward the positive direction. -/
noncomputable def azDistance (current target : ℝ) : ℝ :=
  pickShorter (pickShorter (target - current) (target - current + 2 * Real.pi))
    (target - current - 2 * Real.pi)

/-- The in-transit position of the azimuth model: linear interpolation by
the fraction of elapsed segment time, normalized into [0, 2*pi). -/
noncomputable def azInTransitPos (s : LlcState) (tai : ℝ) : ℝ :=
  wrap (s.start_position + azDistance s.start_position s.end_position *
    ((tai - s.start_tai) / (s.end_tai - s.start_tai)))

/-- Modelled from the spec:
`AzimuthMotion.get_position_velocity_and_motion_state` is not among the
excerpted sources. Reconstructed from the spec's evaluation rules and the
test expectations: after `end_tai` a stop segment holds STOPPED at the end
position, a park segment reports PARKED at the end position, and otherwise
the axis crawls at the crawl velocity, anchored at the end position after a
move and at the start position for a pure crawl command; before `end_tai` a
query before `start_tai` is an out-of-order-time error and otherwise the
position interpolates linearly, with state MOVING (or PARKING, or STOPPED
for a stop segment). Every returned position is normalized into [0, 2*pi). -/
noncomputable def azGet (s : LlcState) (tai : ℝ) :
    Except MotionError (ℝ × ℝ × MotionState) :=
  if s.end_tai ≤ tai then
    if s.commanded_motion_state = MotionState.STOPPING ∨
        s.commanded_motion_state = MotionState.STOPPED then
      Except.ok (wrap s.end_position, 0, MotionState.STOPPED)
    else if s.commanded_motion_state = MotionState.PARKING ∨
        s.commanded_motion_state = MotionState.PARKED then
      Except.ok (wrap s.end_position, 0, MotionState.PARKED)
    else
      let base := if s.commanded_motion_state = MotionState.MOVING then
        s.end_position else s.start_position
      let position := base + s.crawl_velocity * (tai - s.end_tai)
      if s.crawl_velocity = 0 then Except.ok (wrap position, 0, MotionState.STOPPED)
      else Except.ok (wrap position, s.crawl_velocity, MotionState.CRAWLING)
  else if tai < s.start_tai then Except.error MotionError.outOfOrderTime
  else
    let distance := azDistance s.start_position s.end_position
    let velocity := if distance < 0 then -s.max_speed else s.max_speed
    if s.commanded_motion_state = MotionState.STOPPING then
      Except.ok (azInTransitPos s tai, 0, MotionState.STOPPED)
    else if s.commanded_motion_state = MotionState.PARKING then
      Except.ok (azInTransitPos s tai, velocity, MotionState.PARKING)
    else Except.ok (azInTransitPos s tai, velocity, MotionState.MOVING)

/-- Modelled from the spec:
`BaseLlcMotion.set_target_position_and_velocity` is not among the excerpted
sources. Per the spec it rejects a crawl velocity whose magnitude exceeds
the maximum speed before any segment mutation, evaluates the current
position at the command time (an out-of-order command time surfaces that
evaluation's error), and installs the new segment, returning the duration
`|distance| / max_speed`; a pure crawl command is executed instantaneously
(duration 0, as encoded by the `test_crawl_pos`/`test_crawl_neg`
expectations). -/
noncomputable def azSetTarget (s : LlcState) (start_tai end_position
    crawl_velocity : ℝ) (motion_state : MotionState) :
    Except MotionError (LlcState × ℝ) :=
  if s.max_speed < |crawl_velocity| then Except.error MotionError.invalidVelocity
  else
    (azGet s start_tai).map fun r =>
      let current := r.1
      let distance := azDistance current end_position
      let duration := if motion_state = MotionState.CRAWLING then 0
        else |distance| / s.max_speed
      ({ s with
          start_tai := start_tai
          end_tai := start_tai + duration
          start_position := current
          end_position := end_position
          crawl_velocity := crawl_velocity
          commanded_motion_state := motion_state }, duration)

/-- Modelled from the spec: construction of the azimuth model (no position
bounds; the unused bound fields are set to 0). -/
noncomputable def azInit (start_position max_speed start_tai : ℝ) : LlcState :=
  { start_position := start_position
    end_position := start_position
    start_tai := start_tai
    end_tai := start_tai
    crawl_velocity := 0
    commanded_motion_state := MotionState.STOPPED
    min_position := 0
    max_position := 0
    max_speed := max_speed }

lemma pickShorter_left {a b : ℝ} (h : |a| < |b|) : pickShorter a b = a := by
  unfold pickShorter
  rw [if_neg (not_lt.mpr h.le), if_pos h]

lemma pickShorter_right {a b : ℝ} (h : |b| < |a|) : pickShorter a b = b := by
  unfold pickShorter
  rw [if_pos h]

lemma pickShorter_cases (a b : ℝ) : pickShorter a b = a ∨ pickShorter a b = b := by
  unfold pickShorter
  split_ifs with h1 h2
  · right; rfl
  · left; rfl
  · rcases max_choice a b with h | h
    · left; exact h
    · right; exact h

lemma abs_pickShorter_le_left (a b : ℝ) : |pickShorter a b| ≤ |a| := by
  unfold pickShorter
  split_ifs with h1 h2
  · exact h1.le
  · exact le_refl _
  · rcases max_choice a b with h | h
    · rw [h]
    · rw [h]; linarith [not_lt.mp h1, not_lt.mp h2]

lemma abs_pickShorter_le_right (a b : ℝ) : |pickShorter a b| ≤ |b| := by
  unfold pickShorter
  split_ifs with h1 h2
  · exact le_refl _
  · exact h2.le
  · rcases max_choice a b with h | h
    · rw [h]; linarith [not_lt.mp h1, not_lt.mp h2]
    · rw [h]

lemma pickShorter_tie_ge {a b x : ℝ} (hx : x = a ∨ x = b)
    (habs : |x| = |pickShorter a b|) : x ≤ pickShorter a b := by
  by_cases h1 : |b| < |a|
  · rw [pickShorter_right h1] at habs ⊢
    rcases hx with rfl | rfl
    · exact absurd habs (ne_of_gt h1)
    · exact le_refl _
  · by_cases h2 : |a| < |b|
    · rw [pickShorter_left h2] at habs ⊢
      rcases hx with rfl | rfl
      · exact le_refl _
      · exact absurd habs (ne_of_gt h2)
    · have hts : pickShorter a b = max a b := by
        unfold pickShorter
        rw [if_neg h1, if_neg h2]
      rw [hts]
      rcases hx with rfl | rfl
      · exact le_max_left _ _
      · exact le_max_right _ _

lemma azDistance_mem (c t : ℝ) :
    azDistance c t = t - c ∨ azDistance c t = t - c + 2 * Real.pi ∨
      azDistance c t = t - c - 2 * Real.pi := by
  unfold azDistance
  rcases pickShorter_cases
      (pickShorter (t - c) (t - c + 2 * Real.pi)) (t - c - 2 * Real.pi) with h | h
  · rw [h]
    rcases pickShorter_cases (t - c) (t - c + 2 * Real.pi) with h2 | h2
    · left; exact h2
    · right; left; exact h2
  · right; right; exact h

lemma azDistance_abs_le_first (c t : ℝ) : |azDistance c t| ≤ |t - c| :=
  le_trans (abs_pickShorter_le_left _ _) (abs_pickShorter_le_left _ _)

lemma azDistance_abs_le_second (c t : ℝ) :
    |azDistance c t| ≤ |t - c + 2 * Real.pi| :=
  le_trans (abs_pickShorter_le_left _ _) (abs_pickShorter_le_right _ _)

lemma azDistance_abs_le_third (c t : ℝ) :
    |azDistance c t| ≤ |t - c - 2 * Real.pi| :=
  abs_pickShorter_le_right _ _

lemma azDistance_tie_ge {c t d : ℝ}
    (hd : d = t - c ∨ d = t - c + 2 * Real.pi ∨ d = t - c - 2 * Real.pi)
    (habs : |d| = |azDistance c t|) : d ≤ azDistance c t := by
  set A := pickShorter (t - c) (t - c + 2 * Real.pi) with hA
  have hdef : azDistance c t = pickShorter A (t - c - 2 * Real.pi) := by
    rw [azDistance, hA]
  rcases hd with hd | hd | hd
  · have h1 : |azDistance c t| ≤ |A| := abs_pickShorter_le_left _ _
    have h2 : |A| ≤ |d| := by rw [hd]; exact abs_pickShorter_le_left _ _
    have hAd : |d| = |A| := le_antisymm (habs ▸ h1) h2
    have hdA : d ≤ A := pickShorter_tie_ge (Or.inl hd) hAd
    have hAaz : A ≤ pickShorter A (t - c - 2 * Real.pi) :=
      pickShorter_tie_ge (Or.inl rfl)
        (by rw [← hdef]; exact hAd.symm.trans habs)
    rw [hdef]
    exact le_trans hdA hAaz
  · have h1 : |azDistance c t| ≤ |A| := abs_pickShorter_le_left _ _
    have h2 : |A| ≤ |d| := by rw [hd]; exact abs_pickShorter_le_right _ _
    have hAd : |d| = |A| := le_antisymm (habs ▸ h1) h2
    have hdA : d ≤ A := pickShorter_tie_ge (Or.inr hd) hAd
    have hAaz : A ≤ pickShorter A (t - c - 2 * Real.pi) :=
      pickShorter_tie_ge (Or.inl rfl)
        (by rw [← hdef]; exact hAd.symm.trans habs)
    rw [hdef]
    exact le_trans hdA hAaz
  · rw [hdef]
    exact pickShorter_tie_ge (Or.inr hd) (by rw [← hdef]; exact habs)

lemma wrap_add_azDistance (c t : ℝ) : wrap (c + azDistance c t) = wrap t := by
  rcases azDistance_mem c t with h | h | h
  · rw [h, show c + (t - c) = t by ring]
  · rw [h, show c + (t - c + 2 * Real.pi) = t + 2 * Real.pi by ring,
      wrap_add_two_pi]
  · rw [h, show c + (t - c - 2 * Real.pi) = t - 2 * Real.pi by ring,
      wrap_sub_two_pi]

lemma azDistance_eq_zero_wrap {c t : ℝ} (h : azDistance c t = 0) :
    wrap c = wrap t := by
  have := wrap_add_azDistance c t
  rw [h] at this
  simpa using this

lemma azGet_hold_stopped {s : LlcState} {tai : ℝ} (h : s.end_tai ≤ tai)
    (hm : s.commanded_motion_state = MotionState.STOPPING ∨
      s.commanded_motion_state = MotionState.STOPPED) :
    azGet s tai = Except.ok (wrap s.end_position, 0, MotionState.STOPPED) := by
  unfold azGet
  rw [if_pos h, if_pos hm]

lemma azGet_crawl_moving {s : LlcState} {tai : ℝ} (h : s.end_tai ≤ tai)
    (hm : s.commanded_motion_state = MotionState.MOVING)
    (hv : s.crawl_velocity ≠ 0) :
    azGet s tai = Except.ok (wrap (s.end_position + s.crawl_velocity * (tai - s.end_tai)),
      s.crawl_velocity, MotionState.CRAWLING) := by
  unfold azGet
  rw [if_pos h, if_neg (by rw [hm]; simp), if_neg (by rw [hm]; simp)]
  dsimp only
  rw [if_pos hm, if_neg hv]

lemma azGet_crawl_crawling {s : LlcState} {tai : ℝ} (h : s.end_tai ≤ tai)
    (hm : s.commanded_motion_state = MotionState.CRAWLING)
    (hv : s.crawl_velocity ≠ 0) :
    azGet s tai = Except.ok (wrap (s.start_position + s.crawl_velocity * (tai - s.end_tai)),
      s.crawl_velocity, MotionState.CRAWLING) := by
  unfold azGet
  rw [if_pos h, if_neg (by rw [hm]; simp), if_neg (by rw [hm]; simp)]
  dsimp only
  rw [if_neg (show ¬ s.commanded_motion_state = MotionState.MOVING by
    rw [hm]; simp), if_neg hv]

lemma azGet_transit_moving {s : LlcState} {tai : ℝ} (h1 : ¬ s.end_tai ≤ tai)
    (h2 : ¬ tai < s.start_tai)
    (hm : s.commanded_motion_state = MotionState.MOVING) :
    azGet s tai = Except.ok (azInTransitPos s tai,
      if azDistance s.start_position s.end_position < 0 then -s.max_speed
        else s.max_speed,
      MotionState.MOVING) := by
  unfold azGet
  rw [if_neg h1, if_neg h2]
  dsimp only
  rw [if_neg (by rw [hm]; simp), if_neg (by rw [hm]; simp)]

lemma azGet_error_eq {s : LlcState} {tai : ℝ} {e : MotionError}
    (h : azGet s tai = Except.error e) : e = MotionError.outOfOrderTime := by
  unfold azGet at h
  split_ifs at h <;> simp_all

lemma azSetTarget_eq {s : LlcState} {tai tgt v p vv : ℝ} {mm m : MotionState}
    (hv : ¬ s.max_speed < |v|) (hget : azGet s tai = Except.ok (p, vv, mm)) :
    azSetTarget s tai tgt v m = Except.ok
      ({ s with
          start_tai := tai
          end_tai := tai +
            (if m = MotionState.CRAWLING then 0 else |azDistance p tgt| / s.max_speed)
          start_position := p
          end_position := tgt
          crawl_velocity := v
          commanded_motion_state := m },
        if m = MotionState.CRAWLING then 0 else |azDistance p tgt| / s.max_speed) := by
  unfold azSetTarget
  rw [if_neg hv, hget]
  rfl

lemma wrap_zero : wrap 0 = 0 := wrap_eq_self (le_refl 0) two_pi_pos

/-- The segment installed by `ElevationMotion.stop` when the evaluation at
the command time returned position `p`: frozen at `p` with commanded state
STOPPING (the source leaves `_end_tai` untouched). -/
noncomputable def stopState (s : LlcState) (t p : ℝ) : LlcState :=
  { s with
    start_tai := t
    start_position := p
    end_position := p
    crawl_velocity := 0
    commanded_motion_state := MotionState.STOPPING }

lemma elevStop_eq {s : LlcState} {t p v : ℝ} {m : MotionState}
    (hget : elevGet s t = Except.ok (p, v, m)) :
    elevStop s t = Except.ok (stopState s t p) := by
  unfold elevStop stopState
  rw [hget]
  rfl

lemma elevStop_ok_inv {s s' : LlcState} {t : ℝ}
    (hstop : elevStop s t = Except.ok s') :
    ∃ p v m, elevGet s t = Except.ok (p, v, m) ∧ s' = stopState s t p := by
  unfold elevStop at hstop
  cases hget : elevGet s t with
  | error e => rw [hget] at hstop; simp [Except.map] at hstop
  | ok r =>
    obtain ⟨p, v, m⟩ := r
    rw [hget] at hstop
    simp only [Except.map, Except.ok.injEq] at hstop
    exact ⟨p, v, m, rfl, hstop.symm⟩

lemma stopState_start_position (s : LlcState) (t p : ℝ) :
    (stopState s t p).start_position = p := rfl

lemma stopState_end_position (s : LlcState) (t p : ℝ) :
    (stopState s t p).end_position = p := rfl

lemma stopState_start_tai (s : LlcState) (t p : ℝ) :
    (stopState s t p).start_tai = t := rfl

lemma stopState_end_tai (s : LlcState) (t p : ℝ) :
    (stopState s t p).end_tai = s.end_tai := rfl

lemma stopState_commanded (s : LlcState) (t p : ℝ) :
    (stopState s t p).commanded_motion_state = MotionState.STOPPING := rfl

/-! ## Claim theorems -/

/-- Claim C1: after `stop(t)` on the elevation model, every subsequent
query `get_position_velocity_and_motion_state(tai)` with `tai >= t` returns
the position that was evaluated at `t`, velocity 0 and motion state
STOPPED, regardless of the prior command history (moving, crawling or
already stopped). -/
theorem c1_stop_freezes_state (s s' : LlcState) (t p v : ℝ) (m : MotionState)
    (hstop : elevStop s t = Except.ok s')
    (hget : elevGet s t = Except.ok (p, v, m)) :
    ∀ tai : ℝ, t ≤ tai →
      elevGet s' tai = Except.ok (p, 0, MotionState.STOPPED) := by
  intro tai htai
  have hwp : wrap p = p := elevGet_pos_wrapped hget
  obtain ⟨p2, v2, m2, hget2, hs'⟩ := elevStop_ok_inv hstop
  rw [hget] at hget2
  obtain ⟨hp, hv, hm⟩ : p = p2 ∧ v = v2 ∧ m = m2 := by simpa using hget2
  subst hp
  subst hs'
  by_cases hend : (stopState s t p).end_tai ≤ tai
  · have hraw := elevGetRaw_hold hend
      (Or.inl (stopState_commanded s t p))
    have hg := elevGet_eq_ok hraw
    rw [hg, stopState_end_position, hwp]
  · have hns : ¬ tai < (stopState s t p).start_tai := by
      rw [stopState_start_tai, not_lt]
      exact htai
    have hraw := elevGetRaw_transit hend hns
    rw [if_pos (stopState_commanded s t p)] at hraw
    have hd0 : elevDistance (stopState s t p) = 0 := by
      unfold elevDistance
      rw [stopState_end_position, stopState_start_position, sub_self]
    rw [hd0, zero_mul, add_zero] at hraw
    have hg := elevGet_eq_ok hraw
    rw [hg, stopState_start_position, hwp]

/-- Claim C1 witness: a concrete stop on a freshly constructed elevation
model, queried afterwards. -/
theorem c1_stop_freezes_state_witness :
    elevGet (stopState (elevInit 0 0 1 1 0) 5 0) 7 =
      Except.ok (0, 0, MotionState.STOPPED) := by
  have hget : elevGet (elevInit 0 0 1 1 0) 5 =
      Except.ok (0, 0, MotionState.STOPPED) := by
    have hraw := @elevGetRaw_hold (elevInit 0 0 1 1 0) 5
      (by unfold elevInit; norm_num) (Or.inr (Or.inl rfl))
    have := elevGet_eq_ok hraw
    rw [this]
    unfold elevInit
    rw [wrap_zero]
  exact c1_stop_freezes_state (elevInit 0 0 1 1 0) _ 5 0 0 MotionState.STOPPED
    (elevStop_eq hget) hget 7 (by norm_num)

lemma elevGetRaw_ok_of_end_le {s : LlcState} {tai : ℝ} (hend : s.end_tai ≤ tai) :
    ∃ p v m, elevGetRaw s tai = Except.ok (p, v, m) := by
  by_cases hm : s.commanded_motion_state = MotionState.STOPPING ∨
      s.commanded_motion_state = MotionState.STOPPED ∨
      s.commanded_motion_state = MotionState.MOVING
  · exact ⟨_, _, _, elevGetRaw_hold hend hm⟩
  · by_cases hmax : s.max_position ≤
        s.start_position + s.crawl_velocity * (tai - s.end_tai)
    · exact ⟨_, _, _, elevGetRaw_crawl_max hend hm hmax⟩
    · by_cases hmin : s.start_position + s.crawl_velocity * (tai - s.end_tai) ≤
          s.min_position
      · exact ⟨_, _, _, elevGetRaw_crawl_min hend hm hmax hmin⟩
      · by_cases hv : s.crawl_velocity = 0
        · exact ⟨_, _, _, elevGetRaw_crawl_mid_zero hend hm hmax hmin hv⟩
        · exact ⟨_, _, _, elevGetRaw_crawl_mid hend hm hmax hmin hv⟩

lemma elevGetRaw_ok_of_in_transit {s : LlcState} {tai : ℝ}
    (hend : ¬ s.end_tai ≤ tai) (hns : ¬ tai < s.start_tai) :
    ∃ p v m, elevGetRaw s tai = Except.ok (p, v, m) := by
  have hraw := elevGetRaw_transit hend hns
  by_cases hs : s.commanded_motion_state = MotionState.STOPPING
  · rw [if_pos hs] at hraw
    exact ⟨_, _, _, hraw⟩
  · rw [if_neg hs] at hraw
    exact ⟨_, _, _, hraw⟩

/-- Claim C2 (amended): a query of the elevation model fails with the
out-of-order-time error if and only if the query time strictly precedes
BOTH the installed segment's `start_tai` and its `end_tai`; in particular
every query at or after `start_tai` returns a result without error. (For
every segment satisfying the documented invariant `end_tai >= start_tai`
this reduces to the original claim's `tai < start_tai`; the segments on
which it differs are exactly those left by a stop issued after `end_tai` —
claim C3 — where the `tai >= end_tai` branch is taken first and the
out-of-order guard is bypassed for `end_tai <= tai < start_tai`.) -/
theorem c2_out_of_order_time (s : LlcState) (tai : ℝ) :
    (elevGet s tai = Except.error MotionError.outOfOrderTime ↔
      tai < s.start_tai ∧ tai < s.end_tai) ∧
    (s.start_tai ≤ tai → ∃ p v m, elevGet s tai = Except.ok (p, v, m)) := by
  constructor
  · constructor
    · intro herr
      by_cases hend : s.end_tai ≤ tai
      · obtain ⟨p, v, m, hok⟩ := elevGetRaw_ok_of_end_le hend
        rw [elevGet_eq_ok hok] at herr
        simp at herr
      · by_cases hstart : tai < s.start_tai
        · exact ⟨hstart, not_le.mp hend⟩
        · obtain ⟨p, v, m, hok⟩ := elevGetRaw_ok_of_in_transit hend hstart
          rw [elevGet_eq_ok hok] at herr
          simp at herr
    · rintro ⟨h1, h2⟩
      exact elevGet_eq_error (elevGetRaw_error (not_le.mpr h2) h1)
  · intro h
    by_cases hend : s.end_tai ≤ tai
    · obtain ⟨p, v, m, hok⟩ := elevGetRaw_ok_of_end_le hend
      exact ⟨_, _, _, elevGet_eq_ok hok⟩
    · obtain ⟨p, v, m, hok⟩ :=
        elevGetRaw_ok_of_in_transit hend (not_lt.mpr h)
      exact ⟨_, _, _, elevGet_eq_ok hok⟩

/-- Claim C2 counterexample: on the installed (reachable) segment left by
a stop issued at time 10 on a fresh model — whose segment still ends at
time 0, claim C3 — the query at time 5 strictly precedes
`start_tai = 10` yet returns a result instead of the out-of-order-time
error, refuting the claimed equivalence. -/
theorem c2_out_of_order_counterexample :
    ∃ s', elevStop (elevInit 0 0 1 1 0) 10 = Except.ok s' ∧
      (5 : ℝ) < s'.start_tai ∧
      elevGet s' 5 = Except.ok (0, 0, MotionState.STOPPED) := by
  have hget : elevGet (elevInit 0 0 1 1 0) 10 =
      Except.ok (0, 0, MotionState.STOPPED) := by
    have hraw := @elevGetRaw_hold (elevInit 0 0 1 1 0) 10
      (by norm_num [elevInit]) (Or.inr (Or.inl rfl))
    rw [elevGet_eq_ok hraw]
    norm_num [elevInit, wrap_zero]
  refine ⟨stopState (elevInit 0 0 1 1 0) 10 0, elevStop_eq hget, ?_, ?_⟩
  · rw [stopState_start_tai]
    norm_num
  · have hend : (stopState (elevInit 0 0 1 1 0) 10 0).end_tai ≤ 5 := by
      rw [stopState_end_tai]
      norm_num [elevInit]
    have hraw := elevGetRaw_hold hend
      (Or.inl (stopState_commanded (elevInit 0 0 1 1 0) 10 0))
    rw [elevGet_eq_ok hraw, stopState_end_position, wrap_zero]

/-- Claim C2 witness: on a freshly constructed model a query one second
early errors (both branch guards fail) and a query three seconds late
succeeds. -/
theorem c2_out_of_order_time_witness :
    elevGet (elevInit 0 0 1 1 0) (-1) =
      Except.error MotionError.outOfOrderTime ∧
    ∃ p v m, elevGet (elevInit 0 0 1 1 0) 3 = Except.ok (p, v, m) := by
  constructor
  · exact (c2_out_of_order_time (elevInit 0 0 1 1 0) (-1)).1.mpr
      (by constructor <;> norm_num [elevInit])
  · exact (c2_out_of_order_time (elevInit 0 0 1 1 0) 3).2
      (by norm_num [elevInit])

/-- Claim C3 (code-bug witness): `ElevationMotion.stop` does not update
`_end_tai`, so a stop issued at a time later than the installed segment's
end time leaves a segment with `end_tai < start_tai`, contradicting the
documented invariant `end_tai >= start_tai` (under which the installed stop
segment is zero-length). -/
theorem c3_stop_breaks_time_invariant :
    ∃ s', elevStop (elevInit 0 0 1 1 0) 10 = Except.ok s' ∧
      s'.end_tai < s'.start_tai := by
  have hget : elevGet (elevInit 0 0 1 1 0) 10 =
      Except.ok (0, 0, MotionState.STOPPED) := by
    have hraw := @elevGetRaw_hold (elevInit 0 0 1 1 0) 10
      (by norm_num [elevInit]) (Or.inr (Or.inl rfl))
    rw [elevGet_eq_ok hraw]
    norm_num [elevInit, wrap_zero]
  refine ⟨stopState (elevInit 0 0 1 1 0) 10 0, elevStop_eq hget, ?_⟩
  rw [stopState_end_tai, stopState_start_tai]
  norm_num [elevInit]

/-- Claim C6: `ElevationMotion.park` always fails with the
not-implemented error and produces no new state, for every model state and
every command time. -/
theorem c6_park_always_fails (s : LlcState) (t : ℝ) :
    elevPark s t = Except.error MotionError.notImplemented := rfl

/-- Claim C10: the division by `end_tai - start_tai` on the in-transit
branch of the elevation evaluation is never a division by zero: that branch
is reached only when `start_tai <= tai < end_tai`, which forces
`end_tai - start_tai > 0`, and there the evaluation returns the linear
interpolation with that positive denominator. -/
theorem c10_transit_denominator_positive (s : LlcState) (tai : ℝ)
    (h1 : s.start_tai ≤ tai) (h2 : tai < s.end_tai) :
    0 < s.end_tai - s.start_tai ∧
    ∃ v m, elevGet s tai = Except.ok
      (wrap (s.start_position + elevDistance s *
        ((tai - s.start_tai) / (s.end_tai - s.start_tai))), v, m) := by
  constructor
  · linarith
  · have hend : ¬ s.end_tai ≤ tai := not_le.mpr h2
    have hns : ¬ tai < s.start_tai := not_lt.mpr h1
    have hraw := elevGetRaw_transit hend hns
    by_cases hs : s.commanded_motion_state = MotionState.STOPPING
    · rw [if_pos hs] at hraw
      exact ⟨_, _, elevGet_eq_ok hraw⟩
    · rw [if_neg hs] at hraw
      exact ⟨_, _, elevGet_eq_ok hraw⟩

/-- An elevation segment in transit: a move from position 0 to position 1
over two seconds, used to witness the in-transit evaluation. -/
noncomputable def elevMovingState : LlcState :=
  { start_position := 0
    end_position := 1
    start_tai := 0
    end_tai := 2
    crawl_velocity := 0
    commanded_motion_state := MotionState.MOVING
    min_position := 0
    max_position := 1
    max_speed := 1 }

/-- Claim C10 witness: the in-transit evaluation at the concrete midpoint
of `elevMovingState`. -/
theorem c10_transit_denominator_positive_witness :
    0 < elevMovingState.end_tai - elevMovingState.start_tai ∧
    ∃ v m, elevGet elevMovingState 1 = Except.ok
      (wrap (elevMovingState.start_position + elevDistance elevMovingState *
        ((1 - elevMovingState.start_tai) /
          (elevMovingState.end_tai - elevMovingState.start_tai))), v, m) :=
  c10_transit_denominator_positive elevMovingState 1
    (by norm_num [elevMovingState]) (by norm_num [elevMovingState])

lemma elevInit_get {a b c d e t : ℝ} (h : e ≤ t) :
    elevGet (elevInit a b c d e) t =
      Except.ok (wrap a, 0, MotionState.STOPPED) :=
  elevGet_eq_ok (elevGetRaw_hold h (Or.inr (Or.inl rfl)))

/-- Claim C4 (amended): for an elevation segment with commanded state
CRAWLING queried at or after `end_tai`, once the extrapolated crawl
position reaches or exceeds `max_position` (or reaches or falls below
`min_position`), the evaluation clamps to that bound with velocity 0 and
state STOPPED, the returned position being the bound normalized into
[0, 2*pi) (equal to the bound itself whenever the bound already lies in
[0, 2*pi)); the clamped result is unchanged at every later query time while
the crawl velocity points toward the bound, and at every query time at or
after `end_tai` the pre-normalization position stays within
[min_position, max_position] (no overshoot past either bound). -/
theorem c4_crawl_clamps_at_bounds (s : LlcState) (tai : ℝ)
    (hm : s.commanded_motion_state = MotionState.CRAWLING)
    (hb : s.min_position ≤ s.max_position)
    (ht : s.end_tai ≤ tai) :
    (s.max_position ≤ s.start_position + s.crawl_velocity * (tai - s.end_tai) →
      elevGet s tai = Except.ok (wrap s.max_position, 0, MotionState.STOPPED) ∧
      ∀ tai', tai ≤ tai' → 0 ≤ s.crawl_velocity →
        elevGet s tai' =
          Except.ok (wrap s.max_position, 0, MotionState.STOPPED)) ∧
    (s.start_position + s.crawl_velocity * (tai - s.end_tai) ≤ s.min_position →
      elevGet s tai = Except.ok (wrap s.min_position, 0, MotionState.STOPPED) ∧
      ∀ tai', tai ≤ tai' → s.crawl_velocity ≤ 0 →
        elevGet s tai' =
          Except.ok (wrap s.min_position, 0, MotionState.STOPPED)) ∧
    (∀ tai', s.end_tai ≤ tai' →
      ∃ p v' m', elevGetRaw s tai' = Except.ok (p, v', m') ∧
        s.min_position ≤ p ∧ p ≤ s.max_position) := by
  have hnm : ¬ (s.commanded_motion_state = MotionState.STOPPING ∨
      s.commanded_motion_state = MotionState.STOPPED ∨
      s.commanded_motion_state = MotionState.MOVING) := by
    rw [hm]
    simp
  have key_max : ∀ τ, s.end_tai ≤ τ →
      s.max_position ≤ s.start_position + s.crawl_velocity * (τ - s.end_tai) →
      elevGet s τ = Except.ok (wrap s.max_position, 0, MotionState.STOPPED) := by
    intro τ hτ hx
    exact elevGet_eq_ok (elevGetRaw_crawl_max hτ hnm hx)
  have key_min : ∀ τ, s.end_tai ≤ τ →
      s.start_position + s.crawl_velocity * (τ - s.end_tai) ≤ s.min_position →
      elevGet s τ = Except.ok (wrap s.min_position, 0, MotionState.STOPPED) := by
    intro τ hτ hx
    by_cases hmax : s.max_position ≤
        s.start_position + s.crawl_velocity * (τ - s.end_tai)
    · have heq : s.max_position = s.min_position :=
        le_antisymm (hmax.trans hx) hb
      have := elevGet_eq_ok (elevGetRaw_crawl_max hτ hnm hmax)
      rw [heq] at this
      exact this
    · exact elevGet_eq_ok (elevGetRaw_crawl_min hτ hnm hmax hx)
  refine ⟨?_, ?_, ?_⟩
  · intro hx
    refine ⟨key_max tai ht hx, ?_⟩
    intro tai' htai' hv
    have hx' : s.max_position ≤
        s.start_position + s.crawl_velocity * (tai' - s.end_tai) := by
      nlinarith [mul_nonneg hv (sub_nonneg.mpr htai')]
    exact key_max tai' (le_trans ht htai') hx'
  · intro hx
    refine ⟨key_min tai ht hx, ?_⟩
    intro tai' htai' hv
    have hx' : s.start_position + s.crawl_velocity * (tai' - s.end_tai) ≤
        s.min_position := by
      nlinarith [mul_nonneg (neg_nonneg.mpr hv) (sub_nonneg.mpr htai')]
    exact key_min tai' (le_trans ht htai') hx'
  · intro tai' hτ
    by_cases hmax : s.max_position ≤
        s.start_position + s.crawl_velocity * (tai' - s.end_tai)
    · exact ⟨s.max_position, 0, MotionState.STOPPED,
        elevGetRaw_crawl_max hτ hnm hmax, hb, le_refl _⟩
    · by_cases hmin : s.start_position + s.crawl_velocity * (tai' - s.end_tai) ≤
          s.min_position
      · exact ⟨s.min_position, 0, MotionState.STOPPED,
          elevGetRaw_crawl_min hτ hnm hmax hmin, le_refl _, hb⟩
      · by_cases hv : s.crawl_velocity = 0
        · exact ⟨_, 0, MotionState.STOPPED,
            elevGetRaw_crawl_mid_zero hτ hnm hmax hmin hv,
            (not_le.mp hmin).le, (not_le.mp hmax).le⟩
        · exact ⟨_, s.crawl_velocity, MotionState.CRAWLING,
            elevGetRaw_crawl_mid hτ hnm hmax hmin hv,
            (not_le.mp hmin).le, (not_le.mp hmax).le⟩

/-- An elevation segment crawling upward from 6 rad toward the upper bound
7 rad (a bound outside [0, 2*pi)). -/
noncomputable def c4CrawlState : LlcState :=
  { start_position := 6
    end_position := 6
    start_tai := 0
    end_tai := 0
    crawl_velocity := 1
    commanded_motion_state := MotionState.CRAWLING
    min_position := 0
    max_position := 7
    max_speed := 1 }

/-- Claim C4 counterexample: crawling reaches the upper bound 7 rad, but
the returned position is `7 - 2*pi`, not the bound 7 itself, because the
evaluation normalizes every returned position into [0, 2*pi). -/
theorem c4_crawl_clamps_counterexample :
    c4CrawlState.commanded_motion_state = MotionState.CRAWLING ∧
    c4CrawlState.max_position ≤ c4CrawlState.start_position +
      c4CrawlState.crawl_velocity * (2 - c4CrawlState.end_tai) ∧
    elevGet c4CrawlState 2 =
      Except.ok (7 - 2 * Real.pi, 0, MotionState.STOPPED) ∧
    7 - 2 * Real.pi ≠ c4CrawlState.max_position := by
  have hpi1 := Real.pi_gt_three
  have hpi2 := Real.pi_lt_315
  have hw7 : wrap 7 = 7 - 2 * Real.pi := by
    have := wrap_eq_sub_int 7 1 (by push_cast; linarith) (by push_cast; linarith)
    simpa using this
  refine ⟨rfl, by norm_num [c4CrawlState], ?_, ?_⟩
  · have hraw := @elevGetRaw_crawl_max c4CrawlState 2
      (by norm_num [c4CrawlState]) (by simp [c4CrawlState])
      (by norm_num [c4CrawlState])
    rw [elevGet_eq_ok hraw]
    have hmax7 : c4CrawlState.max_position = 7 := rfl
    rw [hmax7, hw7]
  · have hmax7 : c4CrawlState.max_position = 7 := rfl
    rw [hmax7]
    intro hc
    have : 2 * Real.pi = 0 := by linarith
    linarith

/-- Claim C4 witness: the clamp at the upper bound of `c4CrawlState` at
the concrete query time 2, including its stability at later times. -/
theorem c4_crawl_clamps_at_bounds_witness :
    elevGet c4CrawlState 2 =
      Except.ok (wrap c4CrawlState.max_position, 0, MotionState.STOPPED) ∧
    ∀ tai', (2 : ℝ) ≤ tai' → 0 ≤ c4CrawlState.crawl_velocity →
      elevGet c4CrawlState tai' =
        Except.ok (wrap c4CrawlState.max_position, 0, MotionState.STOPPED) :=
  (c4_crawl_clamps_at_bounds c4CrawlState 2 rfl (by norm_num [c4CrawlState])
    (by norm_num [c4CrawlState])).1 (by norm_num [c4CrawlState])

/-- Claim C5 (amended): every position returned by the elevation
evaluation is the pre-normalization (linear, clamped-on-the-crawl-branch)
position normalized by the circular wrap into [0, 2*pi): the returned value
always lies in [0, 2*pi) and equals the pre-normalization position exactly
when that position already lies in [0, 2*pi); in particular a position
frozen or clamped at a negative `min_position` is returned as
`min_position + 2*pi`, not `min_position`. -/
theorem c5_returned_position_is_wrapped (s : LlcState) (tai p v : ℝ)
    (m : MotionState) (h : elevGet s tai = Except.ok (p, v, m)) :
    0 ≤ p ∧ p < 2 * Real.pi ∧
    ∃ praw, elevGetRaw s tai = Except.ok (praw, v, m) ∧ p = wrap praw ∧
      (0 ≤ praw → praw < 2 * Real.pi → p = praw) := by
  obtain ⟨praw, hraw, hp⟩ := elevGet_ok_inv h
  subst hp
  exact ⟨wrap_nonneg _, wrap_lt_two_pi _, praw, hraw, rfl,
    fun h0 h1 => wrap_eq_self h0 h1⟩

/-- Claim C5 witness: the normalization facts at a concrete query of a
freshly constructed model. -/
theorem c5_returned_position_is_wrapped_witness :
    0 ≤ (0 : ℝ) ∧ (0 : ℝ) < 2 * Real.pi ∧
    ∃ praw, elevGetRaw (elevInit 0 0 1 1 0) 5 =
        Except.ok (praw, 0, MotionState.STOPPED) ∧ (0 : ℝ) = wrap praw ∧
      (0 ≤ praw → praw < 2 * Real.pi → (0 : ℝ) = praw) := by
  have hget : elevGet (elevInit 0 0 1 1 0) 5 =
      Except.ok (0, 0, MotionState.STOPPED) := by
    rw [elevInit_get (by norm_num), wrap_zero]
  exact c5_returned_position_is_wrapped (elevInit 0 0 1 1 0) 5 0 0
    MotionState.STOPPED hget

/-- An elevation segment crawling downward from 0 rad toward the negative
lower bound -1 rad. -/
noncomputable def c5CrawlState : LlcState :=
  { start_position := 0
    end_position := 0
    start_tai := 0
    end_tai := 0
    crawl_velocity := -1
    commanded_motion_state := MotionState.CRAWLING
    min_position := -1
    max_position := 1
    max_speed := 1 }

/-- Claim C5 counterexample: the position clamped at the negative lower
bound -1 rad is returned as `2*pi - 1` = `min_position + 2*pi`, which is
neither `min_position` nor inside [min_position, max_position]. -/
theorem c5_returned_position_counterexample :
    c5CrawlState.min_position = -1 ∧
    elevGet c5CrawlState 5 =
      Except.ok (2 * Real.pi - 1, 0, MotionState.STOPPED) ∧
    2 * Real.pi - 1 ≠ c5CrawlState.min_position ∧
    ¬ (2 * Real.pi - 1 ≤ c5CrawlState.max_position) := by
  have hpi1 := Real.pi_gt_three
  have hwm1 : wrap (-1) = 2 * Real.pi - 1 := by
    have := wrap_eq_sub_int (-1) (-1) (by push_cast; linarith)
      (by push_cast; linarith)
    rw [this]
    ring
  refine ⟨rfl, ?_, ?_, ?_⟩
  · have hraw := @elevGetRaw_crawl_min c5CrawlState 5
      (by norm_num [c5CrawlState]) (by simp [c5CrawlState])
      (by norm_num [c5CrawlState]) (by norm_num [c5CrawlState])
    rw [elevGet_eq_ok hraw]
    have hmin : c5CrawlState.min_position = -1 := rfl
    rw [hmin, hwm1]
  · have hmin : c5CrawlState.min_position = -1 := rfl
    rw [hmin]
    intro hc
    linarith
  · have hmax : c5CrawlState.max_position = 1 := rfl
    rw [hmax]
    intro hc
    linarith

lemma rad_zero : rad 0 = 0 := by
  unfold rad
  ring

lemma rad_sub (a b : ℝ) : rad a - rad b = rad (a - b) := by
  unfold rad
  ring

lemma pickShorter_rad_left {a b : ℝ} (h : |a| < |b|) :
    pickShorter (rad a) (rad b) = rad a :=
  pickShorter_left (by rw [abs_rad, abs_rad]; exact rad_lt_rad h)

lemma pickShorter_rad_right {a b : ℝ} (h : |b| < |a|) :
    pickShorter (rad a) (rad b) = rad b :=
  pickShorter_right (by rw [abs_rad, abs_rad]; exact rad_lt_rad h)

lemma azDistance_rad (a b : ℝ) : azDistance (rad a) (rad b) =
    pickShorter (pickShorter (rad (b - a)) (rad (b - a + 360))) (rad (b - a - 360)) := by
  unfold azDistance
  rw [show rad b - rad a = rad (b - a) from rad_sub b a,
    show rad (b - a) + 2 * Real.pi = rad (b - a + 360) by
      rw [two_pi_eq_rad, rad_add],
    show rad (b - a) - 2 * Real.pi = rad (b - a - 360) by
      rw [two_pi_eq_rad, rad_sub]]

lemma azInit_get {a d e t : ℝ} (h : e ≤ t) :
    azGet (azInit a d e) t = Except.ok (wrap a, 0, MotionState.STOPPED) :=
  azGet_hold_stopped h (Or.inr rfl)

lemma azSetTarget_ok_inv {s s' : LlcState} {tai tgt v d : ℝ} {m : MotionState}
    (h : azSetTarget s tai tgt v m = Except.ok (s', d)) :
    ¬ s.max_speed < |v| ∧
    ∃ p vv mm, azGet s tai = Except.ok (p, vv, mm) ∧
      d = (if m = MotionState.CRAWLING then 0
        else |azDistance p tgt| / s.max_speed) ∧
      s' = { s with
        start_tai := tai
        end_tai := tai + d
        start_position := p
        end_position := tgt
        crawl_velocity := v
        commanded_motion_state := m } := by
  by_cases hv : s.max_speed < |v|
  · unfold azSetTarget at h
    rw [if_pos hv] at h
    simp at h
  · refine ⟨hv, ?_⟩
    unfold azSetTarget at h
    rw [if_neg hv] at h
    cases hget : azGet s tai with
    | error e => rw [hget] at h; simp [Except.map] at h
    | ok r =>
      obtain ⟨p, vv, mm⟩ := r
      rw [hget] at h
      simp only [Except.map, Except.ok.injEq, Prod.mk.injEq] at h
      obtain ⟨hs', hd⟩ := h
      refine ⟨p, vv, mm, rfl, hd.symm, ?_⟩
      rw [← hd]
      exact hs'.symm

/-- Claim C8: `set_target_position_and_velocity` fails with the
invalid-velocity error for every crawl velocity whose magnitude exceeds the
maximum speed — the check happening before any segment mutation, so the
error output carries no new segment — and never raises the invalid-velocity
error when the magnitude is within the maximum speed. -/
theorem c8_invalid_velocity (s : LlcState) (tai tgt v : ℝ) (m : MotionState) :
    (s.max_speed < |v| →
      azSetTarget s tai tgt v m = Except.error MotionError.invalidVelocity) ∧
    (|v| ≤ s.max_speed →
      azSetTarget s tai tgt v m ≠ Except.error MotionError.invalidVelocity) := by
  constructor
  · intro h
    unfold azSetTarget
    rw [if_pos h]
  · intro h
    unfold azSetTarget
    rw [if_neg (not_lt.mpr h)]
    cases hget : azGet s tai with
    | error e =>
      have he := azGet_error_eq hget
      subst he
      simp [Except.map]
    | ok r =>
      simp [Except.map]

/-- Claim C8 witness: the scenario of `test_too_high` — a commanded crawl
velocity of 5 deg/s against a maximum speed of 4 deg/s is rejected. -/
theorem c8_invalid_velocity_witness :
    (azInit (rad 10) (rad 4) 10001).max_speed < |rad 5| ∧
    azSetTarget (azInit (rad 10) (rad 4) 10001) 10001 (rad 11) (rad 5)
      MotionState.MOVING = Except.error MotionError.invalidVelocity := by
  have h : (azInit (rad 10) (rad 4) 10001).max_speed < |rad 5| := by
    have hm : (azInit (rad 10) (rad 4) 10001).max_speed = rad 4 := rfl
    rw [hm, abs_rad]
    exact rad_lt_rad (by norm_num)
  exact ⟨h, (c8_invalid_velocity (azInit (rad 10) (rad 4) 10001) 10001
    (rad 11) (rad 5) MotionState.MOVING).1 h⟩

/-- Claim C9: for a segment installed on the azimuth model by a move
command with a nonzero crawl velocity, the reported position is continuous
at `end_tai`: the in-transit linear interpolation evaluated at `end_tai`
equals the position returned at `end_tai`, both being the normalized
`end_position` — the crawl evaluation after a move is anchored exactly at
the move segment's `end_position` — and the reported state there is
CRAWLING. -/
theorem c9_move_crawl_continuity (s s' : LlcState) (tai tgt v d : ℝ)
    (hspd : 0 < s.max_speed) (hv : v ≠ 0)
    (hset : azSetTarget s tai tgt v MotionState.MOVING = Except.ok (s', d)) :
    azInTransitPos s' s'.end_tai = wrap s'.end_position ∧
    azGet s' s'.end_tai =
      Except.ok (wrap s'.end_position, v, MotionState.CRAWLING) := by
  obtain ⟨hvel, p, vv, mm, hget, hd, hs'⟩ := azSetTarget_ok_inv hset
  rw [if_neg (by simp)] at hd
  subst hs'
  constructor
  · unfold azInTransitPos
    dsimp only
    rw [show tai + d - tai = d by ring]
    by_cases hD : azDistance p tgt = 0
    · have hd0 : d = 0 := by
        rw [hd, hD]
        simp
      rw [hD, hd0]
      simpa using azDistance_eq_zero_wrap hD
    · have hdne : d ≠ 0 := by
        rw [hd]
        exact div_ne_zero (abs_ne_zero.mpr hD) (ne_of_gt hspd)
      rw [div_self hdne, mul_one]
      exact wrap_add_azDistance p tgt
  · have hcm := azGet_crawl_moving (s :=
      { s with
        start_tai := tai
        end_tai := tai + d
        start_position := p
        end_position := tgt
        crawl_velocity := v
        commanded_motion_state := MotionState.MOVING }) (le_refl _) rfl hv
    rw [hcm, sub_self, mul_zero, add_zero]

/-- The azimuth segment installed by the move of `test_move_zero_ten_pos`:
from 0 deg to 10 deg at 4 deg/s (duration 2.5 s) with crawl velocity
0.1 deg/s. -/
noncomputable def c9MoveState : LlcState :=
  { start_position := 0
    end_position := rad 10
    start_tai := 10001
    end_tai := 10001 + 5 / 2
    crawl_velocity := rad 0.1
    commanded_motion_state := MotionState.MOVING
    min_position := 0
    max_position := 0
    max_speed := rad 4 }

lemma azDistance_zero_ten : azDistance 0 (rad 10) = rad 10 := by
  rw [← rad_zero, azDistance_rad]
  norm_num
  rw [pickShorter_rad_left (show |(10 : ℝ)| < |(370 : ℝ)| by norm_num),
    pickShorter_rad_left (show |(10 : ℝ)| < |(-350 : ℝ)| by norm_num)]

lemma c9_setTarget_eval :
    azSetTarget (azInit 0 (rad 4) 10001) 10001 (rad 10) (rad 0.1)
      MotionState.MOVING = Except.ok (c9MoveState, 5 / 2) := by
  have hget0 : azGet (azInit 0 (rad 4) 10001) 10001 =
      Except.ok (0, 0, MotionState.STOPPED) := by
    rw [azInit_get (le_refl 10001), wrap_zero]
  have hms : (azInit 0 (rad 4) 10001).max_speed = rad 4 := rfl
  have hvel : ¬ (azInit 0 (rad 4) 10001).max_speed < |rad 0.1| := by
    rw [hms, abs_rad, not_lt]
    exact rad_le_rad (by rw [abs_of_nonneg] <;> norm_num)
  have hdur : (if MotionState.MOVING = MotionState.CRAWLING then 0
      else |azDistance 0 (rad 10)| / (azInit 0 (rad 4) 10001).max_speed) =
      5 / 2 := by
    rw [if_neg (by simp), azDistance_zero_ten, hms, abs_rad]
    norm_num
    rw [rad_div_rad (show (4 : ℝ) ≠ 0 by norm_num)]
    norm_num
  have hset := @azSetTarget_eq (azInit 0 (rad 4) 10001) 10001 (rad 10)
    (rad 0.1) 0 0 MotionState.STOPPED MotionState.MOVING hvel hget0
  rw [hdur] at hset
  exact hset

/-- Claim C9 witness: the continuity facts at `end_tai` of the concrete
move-then-crawl segment of `test_move_zero_ten_pos`. -/
theorem c9_move_crawl_continuity_witness :
    azInTransitPos c9MoveState c9MoveState.end_tai =
      wrap c9MoveState.end_position ∧
    azGet c9MoveState c9MoveState.end_tai =
      Except.ok (wrap c9MoveState.end_position, rad 0.1, MotionState.CRAWLING) := by
  have hspd : 0 < (azInit 0 (rad 4) 10001).max_speed := by
    have hms : (azInit 0 (rad 4) 10001).max_speed = rad 4 := rfl
    rw [hms]
    exact rad_pos (by norm_num)
  exact c9_move_crawl_continuity (azInit 0 (rad 4) 10001) c9MoveState 10001
    (rad 10) (rad 0.1) (5 / 2) hspd (rad_ne_zero (by norm_num))
    c9_setTarget_eval

/-- The azimuth segment installed by the move of
`test_move_threefifty_ten_pos`: from 350 deg to 10 deg at 4 deg/s (duration
5 s) with crawl velocity 0.1 deg/s. -/
noncomputable def c7MoveState : LlcState :=
  { start_position := rad 350
    end_position := rad 10
    start_tai := 10001
    end_tai := 10001 + 5
    crawl_velocity := rad 0.1
    commanded_motion_state := MotionState.MOVING
    min_position := 0
    max_position := 0
    max_speed := rad 4 }

lemma azDistance_threefifty_ten : azDistance (rad 350) (rad 10) = rad 20 := by
  rw [azDistance_rad]
  norm_num
  rw [pickShorter_rad_right (show |(20 : ℝ)| < |(-340 : ℝ)| by norm_num),
    pickShorter_rad_left (show |(20 : ℝ)| < |(-700 : ℝ)| by norm_num)]

lemma c7_setTarget_eval :
    azSetTarget (azInit (rad 350) (rad 4) 10001) 10001 (rad 10) (rad 0.1)
      MotionState.MOVING = Except.ok (c7MoveState, 5) := by
  have hget0 : azGet (azInit (rad 350) (rad 4) 10001) 10001 =
      Except.ok (rad 350, 0, MotionState.STOPPED) := by
    rw [azInit_get (le_refl 10001), wrap_rad_eq (by norm_num) (by norm_num)]
  have hms : (azInit (rad 350) (rad 4) 10001).max_speed = rad 4 := rfl
  have hvel : ¬ (azInit (rad 350) (rad 4) 10001).max_speed < |rad 0.1| := by
    rw [hms, abs_rad, not_lt]
    exact rad_le_rad (by rw [abs_of_nonneg] <;> norm_num)
  have hdur : (if MotionState.MOVING = MotionState.CRAWLING then 0
      else |azDistance (rad 350) (rad 10)| /
        (azInit (rad 350) (rad 4) 10001).max_speed) = 5 := by
    rw [if_neg (by simp), azDistance_threefifty_ten, hms, abs_rad]
    norm_num
    rw [rad_div_rad (show (4 : ℝ) ≠ 0 by norm_num)]
    norm_num
  have hset := @azSetTarget_eq (azInit (rad 350) (rad 4) 10001) 10001
    (rad 10) (rad 0.1) (rad 350) 0 MotionState.STOPPED MotionState.MOVING
    hvel hget0
  rw [hdur] at hset
  exact hset

lemma c7_band : ∀ q : ℝ, 10001 ≤ q → q ≤ 10001 + 5 →
    ∃ p vv mm, azGet c7MoveState q = Except.ok (p, vv, mm) ∧
      (rad 350 ≤ p ∧ p < 2 * Real.pi ∨ 0 ≤ p ∧ p ≤ rad 10) := by
  intro q hq1 hq2
  by_cases hend : c7MoveState.end_tai ≤ q
  · have hq : q = 10001 + 5 := le_antisymm hq2 hend
    have hv : c7MoveState.crawl_velocity ≠ 0 := rad_ne_zero (by norm_num)
    have hcm := azGet_crawl_moving hend rfl hv
    refine ⟨_, _, _, hcm, Or.inr ?_⟩
    have hpos : c7MoveState.end_position +
        c7MoveState.crawl_velocity * (q - c7MoveState.end_tai) = rad 10 := by
      have h1 : c7MoveState.end_position = rad 10 := rfl
      have h2 : c7MoveState.end_tai = 10001 + 5 := rfl
      rw [h1, h2, hq]
      ring
    rw [hpos, wrap_rad_eq (by norm_num) (by norm_num)]
    exact ⟨rad_nonneg (by norm_num), le_refl _⟩
  · have hns : ¬ q < c7MoveState.start_tai := by
      have h3 : c7MoveState.start_tai = 10001 := rfl
      rw [h3, not_lt]
      exact hq1
    have htr := azGet_transit_moving hend hns rfl
    refine ⟨_, _, _, htr, ?_⟩
    have hql : q < 10001 + 5 := by
      have h4 : c7MoveState.end_tai = 10001 + 5 := rfl
      rw [h4] at hend
      exact not_le.mp hend
    set u : ℝ := (q - 10001) / 5 with hu
    have hu0 : 0 ≤ u := div_nonneg (by linarith) (by norm_num)
    have hu1 : u < 1 := (div_lt_one (by norm_num)).mpr (by linarith)
    have hpos : azInTransitPos c7MoveState q = wrap (rad (350 + 20 * u)) := by
      unfold azInTransitPos
      have h1 : c7MoveState.start_position = rad 350 := rfl
      have h2 : c7MoveState.end_position = rad 10 := rfl
      have h3 : c7MoveState.start_tai = 10001 := rfl
      have h4 : c7MoveState.end_tai = 10001 + 5 := rfl
      rw [h1, h2, h3, h4, azDistance_threefifty_ten]
      congr 1
      rw [show (10001 : ℝ) + 5 - 10001 = 5 by norm_num, hu, rad_mul, rad_add]
    rw [hpos]
    by_cases hcase : 350 + 20 * u < 360
    · rw [wrap_rad_eq (by linarith) hcase]
      left
      constructor
      · exact rad_le_rad (by linarith)
      · rw [two_pi_eq_rad]
        exact rad_lt_rad hcase
    · push_neg at hcase
      rw [wrap_rad_sub hcase (by linarith)]
      right
      constructor
      · exact rad_nonneg (by linarith)
      · exact rad_le_rad (by linarith)

/-- Claim C7: the azimuth move distance is the signed shortest-path delta
among `target - current`, `target - current + 2*pi` and
`target - current - 2*pi` (smallest absolute value, exact ties resolved
toward the positive direction); the duration returned by a move command is
that absolute distance divided by the maximum speed; and the concrete move
from 350 deg to 10 deg at 4 deg/s has duration 5 s = (20 deg)/(4 deg/s),
every position along it lying in [350 deg, 360 deg) or [0 deg, 10 deg] —
the motion crosses 0 deg instead of passing backward through 180 deg. -/
theorem c7_shortest_path (c t : ℝ) :
    ((azDistance c t = t - c ∨ azDistance c t = t - c + 2 * Real.pi ∨
        azDistance c t = t - c - 2 * Real.pi) ∧
      |azDistance c t| ≤ |t - c| ∧
      |azDistance c t| ≤ |t - c + 2 * Real.pi| ∧
      |azDistance c t| ≤ |t - c - 2 * Real.pi| ∧
      (∀ d, (d = t - c ∨ d = t - c + 2 * Real.pi ∨ d = t - c - 2 * Real.pi) →
        |d| = |azDistance c t| → d ≤ azDistance c t)) ∧
    (∀ s tai tgt v s' d,
      azSetTarget s tai tgt v MotionState.MOVING = Except.ok (s', d) →
      ∃ p vv mm, azGet s tai = Except.ok (p, vv, mm) ∧
        d = |azDistance p tgt| / s.max_speed ∧ s'.end_tai = tai + d) ∧
    (azSetTarget (azInit (rad 350) (rad 4) 10001) 10001 (rad 10) (rad 0.1)
        MotionState.MOVING = Except.ok (c7MoveState, 5) ∧
      ∀ q, 10001 ≤ q → q ≤ 10001 + 5 →
        ∃ p vv mm, azGet c7MoveState q = Except.ok (p, vv, mm) ∧
          (rad 350 ≤ p ∧ p < 2 * Real.pi ∨ 0 ≤ p ∧ p ≤ rad 10)) := by
  refine ⟨⟨azDistance_mem c t, azDistance_abs_le_first c t,
    azDistance_abs_le_second c t, azDistance_abs_le_third c t,
    fun d hd habs => azDistance_tie_ge hd habs⟩, ?_,
    c7_setTarget_eval, c7_band⟩
  intro s tai tgt v s' d hset
  obtain ⟨hvel, p, vv, mm, hget, hd, hs'⟩ := azSetTarget_ok_inv hset
  rw [if_neg (by simp)] at hd
  subst hs'
  exact ⟨p, vv, mm, hget, hd, rfl⟩

/-- Claim C7 witness: the trajectory membership at the concrete query time
3 s into the 350-to-10 move (the point the test checks at 2 deg). -/
theorem c7_shortest_path_witness :
    ∃ p vv mm, azGet c7MoveState 10004 = Except.ok (p, vv, mm) ∧
      (rad 350 ≤ p ∧ p < 2 * Real.pi ∨ 0 ≤ p ∧ p ≤ rad 10) :=
  (c7_shortest_path 0 0).2.2.2 10004 (by norm_num) (by norm_num)

end MTDome
